import Mathlib

/-!
Shallow embedding of the house-cleaning booking page
(`src/app/(Landing)/booking/house-cleaning/page.tsx`): the room-label
translation `mapRoomsToBackend`, the pricing function
`calculateCleaningPrice`, the duration formatter `getEstimatedTime`,
the validation step `handleContinue`, and the submission call
`bookCleaningService` with its session helpers `getAuthToken` and
`getUserData`.

Numbers are modelled as follows: room counts are `ℕ` (the UI only
produces non-negative integers), prices and the decimal coefficients are
`ℚ`, and `Math.round` results are `ℤ`.  A frontend room selection, a JS
object with string keys, is modelled as an association list
`List (String × ℕ)` whose key list is duplicate-free (JS object keys are
unique); `Object.keys` iteration order is the list order.
-/

/-- The eight backend room labels (the keys of the `backendItems`
object literal in `mapRoomsToBackend`). -/
inductive BackendKey where
  | livingRoom
  | bedrooms
  | bathrooms
  | kitchen
  | diningRoom
  | terraceBalcony
  | garage
  | studyOffice
deriving DecidableEq

/-- The `backendItems` object: one non-negative count per backend label. -/
structure BackendItems where
  livingRoom : ℕ
  bedrooms : ℕ
  bathrooms : ℕ
  kitchen : ℕ
  diningRoom : ℕ
  terraceBalcony : ℕ
  garage : ℕ
  studyOffice : ℕ
deriving DecidableEq

/-- The initial `backendItems` literal: every count `0`. -/
def initBackendItems : BackendItems :=
  ⟨0, 0, 0, 0, 0, 0, 0, 0⟩

/-- Field update `backendItems[backendKey] = v`. -/
def setBackend (s : BackendItems) (k : BackendKey) (v : ℕ) : BackendItems :=
  match k with
  | .livingRoom => { s with livingRoom := v }
  | .bedrooms => { s with bedrooms := v }
  | .bathrooms => { s with bathrooms := v }
  | .kitchen => { s with kitchen := v }
  | .diningRoom => { s with diningRoom := v }
  | .terraceBalcony => { s with terraceBalcony := v }
  | .garage => { s with garage := v }
  | .studyOffice => { s with studyOffice := v }

/-- Field read `backendItems[backendKey]`. -/
def getBackend (s : BackendItems) (k : BackendKey) : ℕ :=
  match k with
  | .livingRoom => s.livingRoom
  | .bedrooms => s.bedrooms
  | .bathrooms => s.bathrooms
  | .kitchen => s.kitchen
  | .diningRoom => s.diningRoom
  | .terraceBalcony => s.terraceBalcony
  | .garage => s.garage
  | .studyOffice => s.studyOffice

/-- The static `roomMapping` table: frontend label to backend label;
`none` for an unrecognized frontend key (the JS lookup yields
`undefined`). -/
def roomMapping (k : String) : Option BackendKey :=
  if k = "Living Room" then some .livingRoom
  else if k = "Terrace" then some .terraceBalcony
  else if k = "Bedroom" then some .bedrooms
  else if k = "Bathroom" then some .bathrooms
  else if k = "Kitchen" then some .kitchen
  else if k = "Dining" then some .diningRoom
  else if k = "Garage" then some .garage
  else none

/-- One iteration of the `Object.keys(frontendItems).forEach` loop:
assign the count to the mapped backend slot, or skip an unrecognized
key.  (The `hasOwnProperty` guard in the source is always true, since
every value of `roomMapping` is a key of the `backendItems` literal.) -/
def applyRoom (s : BackendItems) (p : String × ℕ) : BackendItems :=
  match roomMapping p.1 with
  | some bk => setBackend s bk p.2
  | none => s

/-- `mapRoomsToBackend`: fold the assignment loop over the frontend
object's key/value pairs, starting from the all-zero literal. -/
def mapRoomsToBackend (items : List (String × ℕ)) : BackendItems :=
  items.foldl applyRoom initBackendItems

/-- `Object.values(backendItems).reduce((sum, count) => sum + Number(count), 0)`. -/
def sumBackend (s : BackendItems) : ℕ :=
  s.livingRoom + s.bedrooms + s.bathrooms + s.kitchen + s.diningRoom +
    s.terraceBalcony + s.garage + s.studyOffice

/-- A `CLEANING_CATEGORIES` entry. -/
structure CategoryData where
  basePrice : ℚ
  pricePerRoom : ℚ
deriving DecidableEq

/-- A `CLEANING_PACKAGES` or `HOME_SIZES` entry. -/
structure MultiplierData where
  multiplier : ℚ
deriving DecidableEq

/-- A `FREQUENCIES` entry. -/
structure FrequencyData where
  discount : ℚ
deriving DecidableEq

/-- The `CLEANING_CATEGORIES` table; `none` models the `undefined`
lookup on an unrecognized category. -/
def CLEANING_CATEGORIES (c : String) : Option CategoryData :=
  if c = "Standard Cleaning" then some ⟨8000, 1200⟩
  else if c = "Deep Cleaning" then some ⟨15000, 2000⟩
  else if c = "Move-in Cleaning" then some ⟨20000, 2500⟩
  else if c = "Move-out Cleaning" then some ⟨22000, 2800⟩
  else none

/-- The `CLEANING_PACKAGES` table. -/
def CLEANING_PACKAGES (p : String) : Option MultiplierData :=
  if p = "Basic Package" then some ⟨0.8⟩
  else if p = "Standard Package" then some ⟨1⟩
  else if p = "Premium Package" then some ⟨1.4⟩
  else if p = "Luxury Package" then some ⟨1.8⟩
  else none

/-- The `HOME_SIZES` table. -/
def HOME_SIZES (h : String) : Option MultiplierData :=
  if h = "studio" then some ⟨0.7⟩
  else if h = "small" then some ⟨1⟩
  else if h = "medium" then some ⟨1.5⟩
  else if h = "large" then some ⟨2.2⟩
  else none

/-- The `FREQUENCIES` table. -/
def FREQUENCIES (f : String) : Option FrequencyData :=
  if f = "one-time" then some ⟨0⟩
  else if f = "monthly" then some ⟨0.05⟩
  else if f = "bi-weekly" then some ⟨0.1⟩
  else if f = "weekly" then some ⟨0.15⟩
  else none

/-- The `CleaningPriceOptions` argument: each field optional, the
destructuring defaults of `calculateCleaningPrice` are applied on use. -/
structure CleaningPriceOptions where
  category : Option String := none
  package : Option String := none
  homeSize : Option String := none
  frequency : Option String := none
deriving DecidableEq

/-- The `breakdown` object of a successful price calculation. -/
structure PriceBreakdown where
  basePrice : ℚ
  roomCount : ℕ
  pricePerRoom : ℚ
  packageMultiplier : ℚ
  sizeMultiplier : ℚ
  frequencyDiscount : ℚ
  subtotal : ℚ
  discount : ℚ
  total : ℤ
deriving DecidableEq

/-- The return value of `calculateCleaningPrice`; `breakdown = none`
models the empty `breakdown: {}` object of the fallback returns. -/
structure PriceResult where
  finalPrice : ℤ
  breakdown : Option PriceBreakdown
deriving DecidableEq

/-- JavaScript `Math.round`: round half toward positive infinity. -/
def jsRound (q : ℚ) : ℤ :=
  ⌊q + 1 / 2⌋

/-- `calculateCleaningPrice(items, options)`: look up the four
coefficient tables (returning the zero fallback if any lookup fails),
translate the selection, sum the backend counts (returning the zero
fallback if the sum is `0`), and otherwise compute the price and its
breakdown. -/
def calculateCleaningPrice (items : List (String × ℕ))
    (options : CleaningPriceOptions) : PriceResult :=
  let category := options.category.getD "Standard Cleaning"
  let packageName := options.package.getD "Standard Package"
  let homeSize := options.homeSize.getD "small"
  let frequency := options.frequency.getD "one-time"
  match CLEANING_CATEGORIES category, CLEANING_PACKAGES packageName,
      HOME_SIZES homeSize, FREQUENCIES frequency with
  | some categoryData, some packageData, some sizeData, some frequencyData =>
    let backendItems := mapRoomsToBackend items
    let totalItems := sumBackend backendItems
    if totalItems = 0 then ⟨0, none⟩
    else
      let baseTotal :=
        (categoryData.basePrice + (totalItems : ℚ) * categoryData.pricePerRoom) *
          packageData.multiplier * sizeData.multiplier
      let discountedPrice := baseTotal * (1 - frequencyData.discount)
      let finalPrice := jsRound discountedPrice
      ⟨finalPrice,
        some ⟨categoryData.basePrice, totalItems, categoryData.pricePerRoom,
          packageData.multiplier, sizeData.multiplier, frequencyData.discount,
          baseTotal, baseTotal - discountedPrice, finalPrice⟩⟩
  | _, _, _, _ => ⟨0, none⟩

/-- `getEstimatedTime`, as a function of the `totalItems` state (the sum
of the frontend room counts): `60 + totalItems * 30` minutes, formatted
as hours, then `"h "`, then the minute remainder with an `"m"` suffix
unless the remainder is zero. -/
def getEstimatedTime (totalItems : ℕ) : String :=
  let baseTime := 60
  let timePerItem := 30
  let totalMinutes := baseTime + totalItems * timePerItem
  let hours := totalMinutes / 60
  let minutes := totalMinutes % 60
  toString hours ++ "h " ++ (if minutes > 0 then toString minutes ++ "m" else "")

/-- The error taxonomy of the submission pipeline.  Every error the
pipeline throws is a JS `Error` carrying a user-visible message; the
constructors record which code path threw it.  `jsonParse` models the
`SyntaxError` rejection of `response.json()` on a body that is not
parseable JSON (its message is environment-supplied, so it is not
modelled). -/
inductive BookingError where
  | validation (userMessage : String)
  | auth (userMessage : String)
  | server (userMessage : String)
  | jsonParse
deriving DecidableEq

/-- `Object.values(items).reduce((sum, count) => sum + count, 0)`: the
`totalItems` state derived from the frontend selection. -/
def sumItems (items : List (String × ℕ)) : ℕ :=
  (items.map Prod.snd).sum

/-- Outcome of one `handleContinue` invocation: the error state after
the call, whether any network request was issued by it (the function
body contains no `fetch`), and whether the date selector was opened. -/
structure ContinueResult where
  error : Option BookingError
  networkCalled : Bool
  dateSelectorOpened : Bool
deriving DecidableEq

/-- `handleContinue`: if the selection totals zero rooms, set the
validation error and stop; otherwise clear the error state and open the
date selector.  `prevError` is the error state before the call; both
branches overwrite it. -/
def handleContinue (_prevError : Option BookingError)
    (items : List (String × ℕ)) : ContinueResult :=
  if sumItems items = 0 then
    ⟨some (.validation "Please select at least one room to clean"), false, false⟩
  else
    ⟨none, false, true⟩

/-- JavaScript truthiness of a nullable string: `null` and `""` are
falsy. -/
def jsTruthy (s : Option String) : Bool :=
  match s with
  | none => false
  | some t => !(t == "")

/-- JavaScript `a || b` on nullable strings. -/
def jsOrString (a b : Option String) : Option String :=
  if jsTruthy a then a else b

/-- JavaScript `a || b` where `b` is a (non-null) string. -/
def jsOrMessage (a : Option String) (b : String) : String :=
  (jsOrString a (some b)).getD b

/-- The result of `JSON.parse(localStorage.getItem("user_data"))`:
the key may be absent, hold malformed JSON, or parse to an object whose
`user_id` and `id` fields are each a string or absent. -/
inductive StoredUserData where
  | absent
  | malformed
  | valid (user_id : Option String) (idField : Option String)
deriving DecidableEq

/-- The browser session state read by the pipeline: value of the
`auth_token` cookie if that cookie exists, the `auth_token` and `token`
localStorage entries, and the `user_data` localStorage blob. -/
structure Session where
  cookieAuthToken : Option String
  lsAuthToken : Option String
  lsToken : Option String
  userData : StoredUserData
deriving DecidableEq

/-- `getAuthToken`: the cookie value when an `auth_token=` cookie
exists (returned even when empty), otherwise
`localStorage.getItem("auth_token") || localStorage.getItem("token")`. -/
def getAuthToken (s : Session) : Option String :=
  match s.cookieAuthToken with
  | some t => some t
  | none => jsOrString s.lsAuthToken s.lsToken

/-- `getUserData`: reject an absent blob, a malformed blob, and a parsed
blob whose `user.user_id || user.id` is falsy; otherwise return the
user id.  (The missing-id throw sits inside the `try`, so its message
coincides with the catch's malformed-JSON message.) -/
def getUserData : StoredUserData → Except BookingError String
  | .absent => .error (.auth "User not found. Please log in again.")
  | .malformed => .error (.auth "Invalid user data. Please log in again.")
  | .valid uid idf =>
    match jsOrString uid idf with
    | some u =>
      if u = "" then .error (.auth "Invalid user data. Please log in again.")
      else .ok u
    | none => .error (.auth "Invalid user data. Please log in again.")

/-- The JSON body of a mocked HTTP response, as seen through
`response.json()`: either it parses, with optional `message` and `data`
fields, or parsing rejects. -/
inductive ResponseBody (α : Type) where
  | parsed (message : Option String) (data : Option α)
  | unparseable
deriving DecidableEq

/-- A mocked `fetch` response: `ok` is `status` in the 2xx range. -/
structure MockResponse (α : Type) where
  ok : Bool
  status : ℕ
  body : ResponseBody α
deriving DecidableEq

/-- Outcome of one `bookCleaningService` invocation: the settled value
or thrown error, and how many network requests were issued. -/
structure BookingOutcome (α : Type) where
  result : Except BookingError (Option α)
  networkCalls : ℕ

/-- `bookCleaningService`: require a truthy auth token, resolve the
user id, then POST once; a non-2xx response throws the body's `message`
(or `Booking failed: <status>` when the parsed body has no truthy
message, or the parse rejection itself when the body is unparseable);
a 2xx response resolves to the parsed body's `data` field verbatim.
The surrounding `try`/`catch` logs and rethrows, so every error
propagates unchanged. -/
def bookCleaningService {α : Type} (s : Session) (resp : MockResponse α) :
    BookingOutcome α :=
  if !(jsTruthy (getAuthToken s)) then
    ⟨.error (.auth "Authentication required. Please log in again."), 0⟩
  else
    match getUserData s.userData with
    | .error e => ⟨.error e, 0⟩
    | .ok _userId =>
      if resp.ok then
        match resp.body with
        | .parsed _ d => ⟨.ok d, 1⟩
        | .unparseable => ⟨.error .jsonParse, 1⟩
      else
        match resp.body with
        | .parsed msg _ =>
          ⟨.error (.server (jsOrMessage msg ("Booking failed: " ++ toString resp.status))), 1⟩
        | .unparseable => ⟨.error .jsonParse, 1⟩

/-- Verification helper: the inverse of the static `roomMapping` table
(`none` for the backend-only label `Study/Office`, which no frontend
label maps to). -/
def frontKeyOfBackend : BackendKey → Option String
  | .livingRoom => some "Living Room"
  | .terraceBalcony => some "Terrace"
  | .bedrooms => some "Bedroom"
  | .bathrooms => some "Bathroom"
  | .kitchen => some "Kitchen"
  | .diningRoom => some "Dining"
  | .garage => some "Garage"
  | .studyOffice => none

/-! ### Helper lemmas -/

lemma roomMapping_inv {k : String} {b : BackendKey} (h : roomMapping k = some b) :
    frontKeyOfBackend b = some k := by
  unfold roomMapping at h
  split_ifs at h <;> simp only [Option.some.injEq] at h <;>
    (try subst h) <;> simp_all [frontKeyOfBackend]

lemma roomMapping_injective {k₁ k₂ : String} {b : BackendKey}
    (h₁ : roomMapping k₁ = some b) (h₂ : roomMapping k₂ = some b) : k₁ = k₂ := by
  have e₁ := roomMapping_inv h₁
  have e₂ := roomMapping_inv h₂
  rw [e₁] at e₂
  exact Option.some.inj e₂

lemma setBackend_comm (s : BackendItems) {b₁ b₂ : BackendKey} (v₁ v₂ : ℕ)
    (h : b₁ ≠ b₂) :
    setBackend (setBackend s b₁ v₁) b₂ v₂ = setBackend (setBackend s b₂ v₂) b₁ v₁ := by
  cases b₁ <;> cases b₂ <;> first | rfl | exact absurd rfl h

lemma applyRoom_comm (s : BackendItems) {p₁ p₂ : String × ℕ} (h : p₁.1 ≠ p₂.1) :
    applyRoom (applyRoom s p₁) p₂ = applyRoom (applyRoom s p₂) p₁ := by
  rcases h₁ : roomMapping p₁.1 with _ | b₁ <;>
    rcases h₂ : roomMapping p₂.1 with _ | b₂ <;>
      simp only [applyRoom, h₁, h₂]
  exact setBackend_comm s _ _ fun hb => h (roomMapping_injective h₁ (hb ▸ h₂))

lemma keys_pairwise {l : List (String × ℕ)} (h : (l.map Prod.fst).Nodup) :
    l.Pairwise fun p q => p.1 ≠ q.1 :=
  List.pairwise_map.mp h

lemma mapRoomsToBackend_perm_aux {l₁ l₂ : List (String × ℕ)}
    (hn : (l₁.map Prod.fst).Nodup) (hp : l₁.Perm l₂) :
    mapRoomsToBackend l₁ = mapRoomsToBackend l₂ := by
  unfold mapRoomsToBackend
  refine hp.foldl_eq' ?_ initBackendItems
  intro x hx y hy z
  by_cases hxy : x = y
  · rw [hxy]
  · have hkey :=
      List.Pairwise.forall (fun _ _ hne => Ne.symm hne) (keys_pairwise hn) hx hy hxy
    exact applyRoom_comm z hkey

lemma getBackend_init (b : BackendKey) : getBackend initBackendItems b = 0 := by
  cases b <;> rfl

lemma sumBackend_setBackend (s : BackendItems) (b : BackendKey) (v : ℕ)
    (h : getBackend s b = 0) : sumBackend (setBackend s b v) = sumBackend s + v := by
  cases b <;> simp [sumBackend, setBackend, getBackend] at h ⊢ <;> omega

lemma getBackend_setBackend_ne (s : BackendItems) {b b' : BackendKey} (v : ℕ)
    (h : b ≠ b') : getBackend (setBackend s b v) b' = getBackend s b' := by
  cases b <;> cases b' <;> first | rfl | exact absurd rfl h

lemma sumBackend_foldl (l : List (String × ℕ)) (s : BackendItems)
    (hn : (l.map Prod.fst).Nodup)
    (hfresh : ∀ p ∈ l, ∀ b, roomMapping p.1 = some b → getBackend s b = 0) :
    sumBackend (l.foldl applyRoom s) =
      sumBackend s +
        (l.map fun p => if (roomMapping p.1).isSome then p.2 else 0).sum := by
  induction l generalizing s with
  | nil => simp
  | cons p rest ih =>
    rw [List.foldl_cons]
    have hn2 : p.1 ∉ rest.map Prod.fst ∧ (rest.map Prod.fst).Nodup := by
      rw [List.map_cons, List.nodup_cons] at hn
      exact hn
    obtain ⟨hnotin, hn'⟩ := hn2
    cases hm : roomMapping p.1 with
    | none =>
      have hs' : applyRoom s p = s := by simp [applyRoom, hm]
      rw [hs', ih s hn' fun q hq b hb => hfresh q (List.mem_cons_of_mem _ hq) b hb]
      simp [hm]
    | some b =>
      have hs' : applyRoom s p = setBackend s b p.2 := by simp [applyRoom, hm]
      have hb0 : getBackend s b = 0 := hfresh p (List.mem_cons_self _ _) b hm
      have hfresh' : ∀ q ∈ rest, ∀ b', roomMapping q.1 = some b' →
          getBackend (setBackend s b p.2) b' = 0 := by
        intro q hq b' hb'
        have hbb : b ≠ b' := by
          intro he
          exact hnotin (by
            rw [roomMapping_injective hm (he ▸ hb')]
            exact List.mem_map_of_mem Prod.fst hq)
        rw [getBackend_setBackend_ne s p.2 hbb]
        exact hfresh q (List.mem_cons_of_mem _ hq) b' hb'
      rw [hs', ih (setBackend s b p.2) hn' hfresh',
        sumBackend_setBackend s b p.2 hb0]
      simp [hm, Nat.add_assoc]

lemma sumBackend_mapRooms (l : List (String × ℕ))
    (hn : (l.map Prod.fst).Nodup) :
    sumBackend (mapRoomsToBackend l) =
      (l.map fun p => if (roomMapping p.1).isSome then p.2 else 0).sum := by
  unfold mapRoomsToBackend
  rw [sumBackend_foldl l initBackendItems hn fun p _ b _ => getBackend_init b]
  simp [sumBackend, initBackendItems]

lemma jsRound_intCast (n : ℤ) : jsRound (n : ℚ) = n := by
  rw [jsRound]
  have h0 : ⌊(1 / 2 : ℚ)⌋ = 0 := by
    rw [Int.floor_eq_zero_iff]
    constructor <;> norm_num
  rw [Int.floor_int_add, h0, add_zero]

lemma jsRound_eq_intCast (q : ℚ) (n : ℤ) (h : q = (n : ℚ)) : jsRound q = n := by
  rw [h, jsRound_intCast]

lemma jsOrMessage_some_ne (m fb : String) (h : m ≠ "") :
    jsOrMessage (some m) fb = m := by
  simp [jsOrMessage, jsOrString, jsTruthy, h]

lemma jsOrMessage_some_empty (fb : String) : jsOrMessage (some "") fb = fb := by
  simp [jsOrMessage, jsOrString, jsTruthy]

lemma jsOrMessage_none (fb : String) : jsOrMessage none fb = fb := rfl

/-! ### Claims -/

/-- C1: for every selection whose translated backend room counts sum to
a positive `totalRooms`, and every recognized category, package, home
size and frequency, `calculateCleaningPrice` returns
`finalPrice = round((categoryBase + totalRooms * categoryPerRoom) *
packageMultiplier * sizeMultiplier * (1 - frequencyDiscount))`, with the
breakdown echoing the looked-up coefficients, the subtotal,
`discount = subtotal - discountedPrice`, and `total = finalPrice`. -/
theorem calculateCleaningPrice_formula (items : List (String × ℕ))
    (c p h f : String) (cd : CategoryData) (pd sd : MultiplierData)
    (fd : FrequencyData)
    (hc : CLEANING_CATEGORIES c = some cd) (hp : CLEANING_PACKAGES p = some pd)
    (hh : HOME_SIZES h = some sd) (hf : FREQUENCIES f = some fd)
    (hpos : 0 < sumBackend (mapRoomsToBackend items)) :
    calculateCleaningPrice items ⟨some c, some p, some h, some f⟩ =
      ⟨jsRound ((cd.basePrice +
            (sumBackend (mapRoomsToBackend items) : ℚ) * cd.pricePerRoom) *
          pd.multiplier * sd.multiplier * (1 - fd.discount)),
        some ⟨cd.basePrice, sumBackend (mapRoomsToBackend items),
          cd.pricePerRoom, pd.multiplier, sd.multiplier, fd.discount,
          (cd.basePrice +
              (sumBackend (mapRoomsToBackend items) : ℚ) * cd.pricePerRoom) *
            pd.multiplier * sd.multiplier,
          (cd.basePrice +
                (sumBackend (mapRoomsToBackend items) : ℚ) * cd.pricePerRoom) *
              pd.multiplier * sd.multiplier -
            (cd.basePrice +
                (sumBackend (mapRoomsToBackend items) : ℚ) * cd.pricePerRoom) *
              pd.multiplier * sd.multiplier * (1 - fd.discount),
          jsRound ((cd.basePrice +
              (sumBackend (mapRoomsToBackend items) : ℚ) * cd.pricePerRoom) *
            pd.multiplier * sd.multiplier * (1 - fd.discount))⟩⟩ := by
  simp only [calculateCleaningPrice, Option.getD, hc, hp, hh, hf]
  rw [if_neg (Nat.pos_iff_ne_zero.mp hpos)]

/-- Witness for C1: the selection `{Bedroom: 2}` with the four default
options gives `finalPrice = 10400` and the matching breakdown. -/
theorem calculateCleaningPrice_formula_witness :
    calculateCleaningPrice [("Bedroom", 2)]
      ⟨some "Standard Cleaning", some "Standard Package", some "small",
        some "one-time"⟩ =
      ⟨10400, some ⟨8000, 2, 1200, 1, 1, 0, 10400, 0, 10400⟩⟩ := by
  have hsum : sumBackend (mapRoomsToBackend [("Bedroom", 2)]) = 2 := by decide
  rw [calculateCleaningPrice_formula [("Bedroom", 2)] "Standard Cleaning"
    "Standard Package" "small" "one-time" ⟨8000, 1200⟩ ⟨1⟩ ⟨1⟩ ⟨0⟩
    rfl rfl rfl rfl (by decide)]
  rw [hsum]
  norm_num
  apply jsRound_eq_intCast
  norm_num

/-- C2: for every selection whose translated backend room counts sum to
`0` and every recognized combination of the four options,
`calculateCleaningPrice` returns the zero-valued result
(`finalPrice = 0`, empty breakdown). -/
theorem calculateCleaningPrice_zeroRooms (items : List (String × ℕ))
    (c p h f : String) (cd : CategoryData) (pd sd : MultiplierData)
    (fd : FrequencyData)
    (hc : CLEANING_CATEGORIES c = some cd) (hp : CLEANING_PACKAGES p = some pd)
    (hh : HOME_SIZES h = some sd) (hf : FREQUENCIES f = some fd)
    (hsum : sumBackend (mapRoomsToBackend items) = 0) :
    calculateCleaningPrice items ⟨some c, some p, some h, some f⟩ =
      ⟨0, none⟩ := by
  simp only [calculateCleaningPrice, Option.getD, hc, hp, hh, hf]
  rw [if_pos hsum]

/-- Witness for C2: the empty selection with the default options
yields the zero-valued result. -/
theorem calculateCleaningPrice_zeroRooms_witness :
    calculateCleaningPrice []
      ⟨some "Standard Cleaning", some "Standard Package", some "small",
        some "one-time"⟩ = ⟨0, none⟩ :=
  calculateCleaningPrice_zeroRooms [] "Standard Cleaning" "Standard Package"
    "small" "one-time" ⟨8000, 1200⟩ ⟨1⟩ ⟨1⟩ ⟨0⟩ rfl rfl rfl rfl (by decide)

/-- C7: `calculateCleaningPrice` on `{Kitchen: 1, Bathroom: 1}` with
Deep Cleaning, Premium Package, medium, weekly gives
`subtotal = (15000 + 2 * 2000) * 1.4 * 1.5 = 39900`,
discounted price `39900 * 0.85 = 33915` (so
`discount = 39900 - 33915 = 5985`), and `finalPrice = 33915`. -/
theorem calculateCleaningPrice_deepPremium :
    calculateCleaningPrice [("Kitchen", 1), ("Bathroom", 1)]
      ⟨some "Deep Cleaning", some "Premium Package", some "medium",
        some "weekly"⟩ =
      ⟨33915, some ⟨15000, 2, 2000, 1.4, 1.5, 0.15, 39900, 5985, 33915⟩⟩ := by
  have hsum :
      sumBackend (mapRoomsToBackend [("Kitchen", 1), ("Bathroom", 1)]) = 2 := by
    decide
  have hc : CLEANING_CATEGORIES "Deep Cleaning" = some ⟨15000, 2000⟩ := rfl
  have hp : CLEANING_PACKAGES "Premium Package" = some ⟨1.4⟩ := rfl
  have hh : HOME_SIZES "medium" = some ⟨1.5⟩ := rfl
  have hf : FREQUENCIES "weekly" = some ⟨0.15⟩ := rfl
  simp only [calculateCleaningPrice, Option.getD, hc, hp, hh, hf, hsum]
  norm_num
  all_goals apply jsRound_eq_intCast
  all_goals norm_num

/-- C8: if any of the four resolved option values falls outside its
coefficient table, `calculateCleaningPrice` returns the defined
fallback `finalPrice = 0` with an empty breakdown (it is a total
function, so no error is raised). -/
theorem calculateCleaningPrice_unrecognized (items : List (String × ℕ))
    (options : CleaningPriceOptions)
    (hbad :
      CLEANING_CATEGORIES (options.category.getD "Standard Cleaning") = none ∨
      CLEANING_PACKAGES (options.package.getD "Standard Package") = none ∨
      HOME_SIZES (options.homeSize.getD "small") = none ∨
      FREQUENCIES (options.frequency.getD "one-time") = none) :
    calculateCleaningPrice items options = ⟨0, none⟩ := by
  rcases hbad with h | h | h | h
  · simp only [calculateCleaningPrice, h]
  · cases h1 : CLEANING_CATEGORIES (options.category.getD "Standard Cleaning") <;>
      simp only [calculateCleaningPrice, h, h1]
  · cases h1 : CLEANING_CATEGORIES (options.category.getD "Standard Cleaning") <;>
      cases h2 : CLEANING_PACKAGES (options.package.getD "Standard Package") <;>
        simp only [calculateCleaningPrice, h, h1, h2]
  · cases h1 : CLEANING_CATEGORIES (options.category.getD "Standard Cleaning") <;>
      cases h2 : CLEANING_PACKAGES (options.package.getD "Standard Package") <;>
        cases h3 : HOME_SIZES (options.homeSize.getD "small") <;>
          simp only [calculateCleaningPrice, h, h1, h2, h3]

/-- Witness for C8: a typo category `"Bogus Cleaning"` yields the
zero fallback even on a non-empty selection. -/
theorem calculateCleaningPrice_unrecognized_witness :
    calculateCleaningPrice [("Bedroom", 3)]
      ⟨some "Bogus Cleaning", none, none, none⟩ = ⟨0, none⟩ :=
  calculateCleaningPrice_unrecognized [("Bedroom", 3)]
    ⟨some "Bogus Cleaning", none, none, none⟩ (Or.inl (by decide))

/-- C10: absent option fields are replaced by the destructuring
defaults `"Standard Cleaning"`, `"Standard Package"`, `"small"` and
`"one-time"`, so any call equals the call with all four values supplied
explicitly. -/
theorem calculateCleaningPrice_defaults (items : List (String × ℕ))
    (options : CleaningPriceOptions) :
    calculateCleaningPrice items options =
      calculateCleaningPrice items
        ⟨some (options.category.getD "Standard Cleaning"),
          some (options.package.getD "Standard Package"),
          some (options.homeSize.getD "small"),
          some (options.frequency.getD "one-time")⟩ := by
  obtain ⟨c, p, h, f⟩ := options
  cases c <;> cases p <;> cases h <;> cases f <;> rfl

/-- C9: the estimated duration is `60 + totalRooms * 30` minutes,
rendered as the hour count, then `"h "`, then the minute remainder with
an `"m"` suffix — the minutes part omitted (trailing space kept) when
the remainder is zero; in particular `"1h "` for 0 rooms, `"1h 30m"`
for 1 room and `"2h "` for 2 rooms. -/
theorem getEstimatedTime_formula :
    (∀ n : ℕ, getEstimatedTime n =
      toString ((60 + n * 30) / 60) ++ "h " ++
        (if n % 2 = 0 then "" else "30m")) ∧
    getEstimatedTime 0 = "1h " ∧
    getEstimatedTime 1 = "1h 30m" ∧
    getEstimatedTime 2 = "2h " := by
  refine ⟨fun n => ?_, by decide, by decide, by decide⟩
  show toString ((60 + n * 30) / 60) ++ "h " ++
      (if (60 + n * 30) % 60 > 0 then toString ((60 + n * 30) % 60) ++ "m" else "") =
    toString ((60 + n * 30) / 60) ++ "h " ++ (if n % 2 = 0 then "" else "30m")
  have h2 : (60 + n * 30) % 60 = 30 * (n % 2) := by omega
  rcases Nat.mod_two_eq_zero_or_one n with h | h <;> rw [h2, h] <;> rfl

/-- C6: for a frontend selection with duplicate-free keys, translating
with `mapRoomsToBackend` and summing the backend counts equals the sum
of the counts attached to recognized frontend labels (unrecognized keys
contributing zero), and the translation is independent of the iteration
order of the keys. -/
theorem mapRoomsToBackend_sum_perm (l₁ l₂ : List (String × ℕ))
    (hn : (l₁.map Prod.fst).Nodup) (hp : l₁.Perm l₂) :
    sumBackend (mapRoomsToBackend l₁) =
      (l₁.map fun p => if (roomMapping p.1).isSome then p.2 else 0).sum ∧
    mapRoomsToBackend l₁ = mapRoomsToBackend l₂ :=
  ⟨sumBackend_mapRooms l₁ hn, mapRoomsToBackend_perm_aux hn hp⟩

/-- Witness for C6: a selection with one unrecognized key, reordered. -/
theorem mapRoomsToBackend_sum_perm_witness :
    sumBackend (mapRoomsToBackend [("Kitchen", 2), ("Bogus", 5), ("Bedroom", 1)]) =
      ([("Kitchen", 2), ("Bogus", 5), ("Bedroom", 1)].map
        fun p => if (roomMapping p.1).isSome then p.2 else 0).sum ∧
    mapRoomsToBackend [("Kitchen", 2), ("Bogus", 5), ("Bedroom", 1)] =
      mapRoomsToBackend [("Bedroom", 1), ("Bogus", 5), ("Kitchen", 2)] :=
  mapRoomsToBackend_sum_perm [("Kitchen", 2), ("Bogus", 5), ("Bedroom", 1)]
    [("Bedroom", 1), ("Bogus", 5), ("Kitchen", 2)] (by decide) (by decide)

/-- C3: `handleContinue` sets the no-rooms-selected `ValidationError`
exactly when the selected room counts total zero (issuing no network
call either way), and clears any previously surfaced error when the
total is positive. -/
theorem handleContinue_validation (prevError : Option BookingError)
    (items : List (String × ℕ)) :
    (handleContinue prevError items).error =
      (if sumItems items = 0
        then some (.validation "Please select at least one room to clean")
        else none) ∧
    (handleContinue prevError items).networkCalled = false := by
  by_cases h : sumItems items = 0 <;> simp [handleContinue, h]

/-- C4: `bookCleaningService` fails with the missing-credential
`AuthError` and zero network calls when no usable auth token is
readable, and with an `AuthError` carrying a distinct message (again
before any network call) when the stored `user_data` blob is absent,
malformed, or yields no usable user id. -/
theorem bookCleaningService_authErrors (α : Type) (s : Session)
    (resp : MockResponse α) :
    (jsTruthy (getAuthToken s) = false →
      bookCleaningService s resp =
        ⟨.error (.auth "Authentication required. Please log in again."), 0⟩) ∧
    (jsTruthy (getAuthToken s) = true → s.userData = .absent →
      bookCleaningService s resp =
        ⟨.error (.auth "User not found. Please log in again."), 0⟩) ∧
    (jsTruthy (getAuthToken s) = true → s.userData = .malformed →
      bookCleaningService s resp =
        ⟨.error (.auth "Invalid user data. Please log in again."), 0⟩) ∧
    (∀ uid idf, jsTruthy (getAuthToken s) = true → s.userData = .valid uid idf →
      jsTruthy (jsOrString uid idf) = false →
      bookCleaningService s resp =
        ⟨.error (.auth "Invalid user data. Please log in again."), 0⟩) ∧
    ("User not found. Please log in again." ≠
        "Authentication required. Please log in again." ∧
      "Invalid user data. Please log in again." ≠
        "Authentication required. Please log in again.") := by
  refine ⟨?_, ?_, ?_, ?_, by decide⟩
  · intro htok
    simp [bookCleaningService, htok]
  · intro htok hu
    simp [bookCleaningService, htok, hu, getUserData]
  · intro htok hu
    simp [bookCleaningService, htok, hu, getUserData]
  · intro uid idf htok hu hbad
    have hres : getUserData (.valid uid idf) =
        .error (.auth "Invalid user data. Please log in again.") := by
      simp only [getUserData]
      cases hj : jsOrString uid idf with
      | none => rfl
      | some t =>
        have ht : t = "" := by
          rw [hj] at hbad
          simpa [jsTruthy] using hbad
        simp [ht]
    simp [bookCleaningService, htok, hu, hres]

/-- Witness for C4: concrete sessions exercising the missing-token,
absent-blob, malformed-blob and empty-id paths. -/
theorem bookCleaningService_authErrors_witness :
    bookCleaningService ⟨none, none, none, .absent⟩
        (⟨false, 500, .unparseable⟩ : MockResponse String) =
      ⟨.error (.auth "Authentication required. Please log in again."), 0⟩ ∧
    bookCleaningService ⟨some "tok", none, none, .absent⟩
        (⟨false, 500, .unparseable⟩ : MockResponse String) =
      ⟨.error (.auth "User not found. Please log in again."), 0⟩ ∧
    bookCleaningService ⟨some "tok", none, none, .malformed⟩
        (⟨false, 500, .unparseable⟩ : MockResponse String) =
      ⟨.error (.auth "Invalid user data. Please log in again."), 0⟩ ∧
    bookCleaningService ⟨some "tok", none, none, .valid none (some "")⟩
        (⟨false, 500, .unparseable⟩ : MockResponse String) =
      ⟨.error (.auth "Invalid user data. Please log in again."), 0⟩ :=
  ⟨(bookCleaningService_authErrors String ⟨none, none, none, .absent⟩
      ⟨false, 500, .unparseable⟩).1 rfl,
    (bookCleaningService_authErrors String ⟨some "tok", none, none, .absent⟩
      ⟨false, 500, .unparseable⟩).2.1 rfl rfl,
    (bookCleaningService_authErrors String ⟨some "tok", none, none, .malformed⟩
      ⟨false, 500, .unparseable⟩).2.2.1 rfl rfl,
    (bookCleaningService_authErrors String
      ⟨some "tok", none, none, .valid none (some "")⟩
      ⟨false, 500, .unparseable⟩).2.2.2.1 none (some "") rfl rfl rfl⟩

/-- C5 (amended): once the credential and user id resolve, a non-2xx
response fails with the parsed body's truthy `message`, or with the
generic `Booking failed: <status>` when the body parses without a
truthy message; when the body is not parseable JSON the parse failure
itself propagates (not a status-derived message); a 2xx response with a
parseable body resolves to its `data` field verbatim.  Exactly one
network call is made in each case. -/
theorem bookCleaningService_responseHandling (α : Type) (s : Session)
    (resp : MockResponse α) (uid : String)
    (htok : jsTruthy (getAuthToken s) = true)
    (huser : getUserData s.userData = .ok uid) :
    (∀ m d, resp.ok = false → resp.body = .parsed (some m) d → m ≠ "" →
      bookCleaningService s resp = ⟨.error (.server m), 1⟩) ∧
    (∀ d, resp.ok = false → resp.body = .parsed none d →
      bookCleaningService s resp =
        ⟨.error (.server ("Booking failed: " ++ toString resp.status)), 1⟩) ∧
    (∀ d, resp.ok = false → resp.body = .parsed (some "") d →
      bookCleaningService s resp =
        ⟨.error (.server ("Booking failed: " ++ toString resp.status)), 1⟩) ∧
    (resp.ok = false → resp.body = .unparseable →
      bookCleaningService s resp = ⟨.error .jsonParse, 1⟩) ∧
    (∀ m d, resp.ok = true → resp.body = .parsed m d →
      bookCleaningService s resp = ⟨.ok d, 1⟩) := by
  refine ⟨?_, ?_, ?_, ?_, ?_⟩
  · intro m d hok hbody hm
    simp [bookCleaningService, htok, huser, hok, hbody, jsOrMessage_some_ne m _ hm]
  · intro d hok hbody
    simp [bookCleaningService, htok, huser, hok, hbody, jsOrMessage_none]
  · intro d hok hbody
    simp [bookCleaningService, htok, huser, hok, hbody, jsOrMessage_some_empty]
  · intro hok hbody
    simp [bookCleaningService, htok, huser, hok, hbody]
  · intro m d hok hbody
    simp [bookCleaningService, htok, huser, hok, hbody]

/-- Witness for C5: the spec's mocked examples — a 500 response with
`message: "server down"` fails with that message, and a 201 response
with `data: "b1"` resolves to it. -/
theorem bookCleaningService_responseHandling_witness :
    bookCleaningService ⟨some "tok", none, none, .valid (some "u1") none⟩
        (⟨false, 500, .parsed (some "server down") none⟩ : MockResponse String) =
      ⟨.error (.server "server down"), 1⟩ ∧
    bookCleaningService ⟨some "tok", none, none, .valid (some "u1") none⟩
        (⟨true, 201, .parsed none (some "b1")⟩ : MockResponse String) =
      ⟨.ok (some "b1"), 1⟩ :=
  ⟨(bookCleaningService_responseHandling String
      ⟨some "tok", none, none, .valid (some "u1") none⟩
      ⟨false, 500, .parsed (some "server down") none⟩ "u1" rfl rfl).1
      "server down" none rfl rfl (by decide),
    (bookCleaningService_responseHandling String
      ⟨some "tok", none, none, .valid (some "u1") none⟩
      ⟨true, 201, .parsed none (some "b1")⟩ "u1" rfl rfl).2.2.2.2
      none (some "b1") rfl rfl⟩

/-- Counterexample for C5 as stated: on a 500 response whose body is
not parseable JSON, `bookCleaningService` propagates the JSON parse
failure rather than failing with the generic status-derived message
`"Booking failed: 500"`. -/
theorem bookCleaningService_unparseable_cex :
    bookCleaningService ⟨some "tok", none, none, .valid (some "u1") none⟩
        (⟨false, 500, .unparseable⟩ : MockResponse String) =
      ⟨.error .jsonParse, 1⟩ ∧
    (⟨.error .jsonParse, 1⟩ : BookingOutcome String) ≠
      ⟨.error (.server "Booking failed: 500"), 1⟩ := by
  constructor
  · rfl
  · intro h
    simp at h
